import Mathlib

/-!
Shallow embedding of the zone-leasing core of `src/app.py`
(inventory web application).

The `active_tasks` table is modelled as a list of `Lease` rows, timestamps as
integers (`CURRENT_TIMESTAMP` becomes an explicit `now : Int` argument), and
every database operation of the core becomes a pure function on the table.
Each `try/except` block that swallows a store exception is modelled with an
explicit `dbFail : Bool` argument selecting the exception branch.
-/

namespace Inventarizacia

/-- Value of the `status` column of `active_tasks` (`'active'`, `'expired'`,
`'completed'`). -/
inductive Status where
  | active
  | expired
  | completed
  deriving DecidableEq, Repr

/-- One row of the `active_tasks` table created by `ensure_tasks_table` in
`src/app.py`: `task_id SERIAL PRIMARY KEY, zone_prefix, badge, assigned_at,
expires_at, status`. -/
structure Lease where
  task_id : Nat
  zone_prefix : String
  badge : String
  assigned_at : Int
  expires_at : Int
  status : Status
  deriving DecidableEq, Repr

/-- The `active_tasks` table, in row order. -/
abbrev Store := List Lease

/-- Projection of the zone column of a lease row. -/
def leaseZone : Lease → String := Lease.zone_prefix

/-- The predicate of the `UPDATE` in `cleanup_expired_tasks` (src/app.py
lines 340-359): `expires_at < CURRENT_TIMESTAMP AND status = 'active'`. -/
def expiredNow (now : Int) (l : Lease) : Bool :=
  decide (l.expires_at < now ∧ l.status = Status.active)

/-- Model of `cleanup_expired_tasks` (src/app.py lines 340-359): sets
`status = 'expired'` on every row with `expires_at < CURRENT_TIMESTAMP AND
status = 'active'` and reports the row count.  A store exception
(`dbFail = true`) is caught, the transaction is rolled back, and nothing is
raised: the table is left unchanged and no count is reported. -/
def cleanup_expired_tasks (dbFail : Bool) (now : Int) (s : Store) : Store × Nat :=
  if dbFail then (s, 0)
  else
    (s.map (fun l => if expiredNow now l then { l with status := Status.expired } else l),
     s.countP (expiredNow now))

/-- The `SELECT badge FROM active_tasks WHERE zone_prefix = %s AND
status = 'active' AND expires_at > CURRENT_TIMESTAMP` check inside
`reserve_zone`: the first matching row, if any. -/
def find_active_row (zp : String) (now : Int) (s : Store) : Option Lease :=
  s.find? (fun l => decide (leaseZone l = zp ∧ l.status = Status.active ∧ now < l.expires_at))

/-- Model of `reserve_zone` (src/app.py lines 362-401): checks for an existing active,
unexpired lease on the zone and, finding none, inserts a fresh `active` row
expiring `hours` later; returns `true` on insert and `false` when the zone is
taken.  The surrounding `except` catches any store error, rolls back, and
returns `false` as well (`dbFail = true` selects that branch).  `nid` is the
`SERIAL` value the insert would receive. -/
def reserve_zone (dbFail : Bool) (zp badge : String) (hours now : Int) (nid : Nat)
    (s : Store) : Bool × Store :=
  if dbFail then (false, s)
  else
    match find_active_row zp now s with
    | some _ => (false, s)
    | none => (true, s ++ [⟨nid, zp, badge, now, now + hours, Status.active⟩])

/-- Model of `get_occupied_zones` (src/app.py lines 404-422): `SELECT DISTINCT
zone_prefix FROM active_tasks WHERE status = 'active' AND expires_at >
CURRENT_TIMESTAMP`.  On a store error the `except` branch returns the empty
set. -/
def get_occupied_zones (dbFail : Bool) (now : Int) (s : Store) : List String :=
  if dbFail then []
  else
    ((s.filter (fun l => decide (l.status = Status.active ∧ now < l.expires_at))).map
      leaseZone).dedup

/-- Model of `get_active_tasks` (src/app.py lines 1716-1756): rows with
`status = 'active' AND expires_at > CURRENT_TIMESTAMP`, ordered by
`assigned_at DESC`. -/
def get_active_tasks (now : Int) (s : Store) : List Lease :=
  (s.filter (fun l => decide (l.status = Status.active ∧ now < l.expires_at))).mergeSort
    (fun a b => decide (b.assigned_at ≤ a.assigned_at))

/-- Outcome of the `/api/task/complete` handler: the 400 bad-request branch
for a missing badge or zone, or the JSON `success` flag. -/
inductive CompleteResult where
  | badRequest
  | ok (success : Bool)
  deriving DecidableEq, Repr

/-- The row filter of the `UPDATE` in `complete_task`: `zone_prefix = %s AND
badge = %s AND status = 'active'`.  The expiration timestamp is not
consulted. -/
def completeMatches (zone badge : String) (l : Lease) : Bool :=
  decide (leaseZone l = zone ∧ l.badge = badge ∧ l.status = Status.active)

/-- Model of `complete_task` (src/app.py lines 1673-1713): rejects an empty badge or
zone with a 400, otherwise sets `status = 'completed'` on every row of the
caller's own active lease on the zone and reports `success = rowcount > 0`. -/
def complete_task (badge zone : String) (s : Store) : CompleteResult × Store :=
  if badge = "" ∨ zone = "" then (CompleteResult.badRequest, s)
  else
    (CompleteResult.ok (0 < s.countP (completeMatches zone badge)),
     s.map (fun l => if completeMatches zone badge l then { l with status := Status.completed }
                     else l))

/-- The row filter of the `UPDATE` in `admin_extend_task`: `task_id = %s AND
status = 'active'`.  The expiration timestamp is not consulted. -/
def extendMatches (tid : Nat) (l : Lease) : Bool :=
  decide (l.task_id = tid ∧ l.status = Status.active)

/-- Model of `admin_extend_task` (src/app.py lines 1802-1844): `UPDATE active_tasks SET
expires_at = expires_at + INTERVAL '%s hours' WHERE task_id = %s AND status =
'active' RETURNING ...`; answers 404 (`none`) when no row was updated. -/
def admin_extend_task (tid : Nat) (hours : Int) (s : Store) : Option Lease × Store :=
  ((s.find? (extendMatches tid)).map (fun l => { l with expires_at := l.expires_at + hours }),
   s.map (fun l => if extendMatches tid l then { l with expires_at := l.expires_at + hours }
                   else l))

/-- Number of rows of the table that hold an active lease on zone `zp` not yet
expired at time `t` — the quantity the per-zone mutual-exclusion invariant
bounds by one. -/
def countActive (zp : String) (t : Int) (s : Store) : Nat :=
  s.countP (fun l => decide (leaseZone l = zp ∧ l.status = Status.active ∧ t < l.expires_at))

/-!
Interleaving model of two concurrent `reserve_zone` executions.

`reserve_zone` runs its `SELECT` check and its `INSERT` as two separate
statements with no uniqueness constraint on `active_tasks` and no row lock, so
a concurrent execution can run between them.  A session is therefore modelled
as a two-step program (check, then insert-if-free) and a scheduler interleaves
the steps of two sessions over the shared table.
-/

/-- Program counter of one in-flight `reserve_zone` execution: before the
`SELECT` check, after the check (remembering whether an active row was seen),
or finished with its boolean result. -/
inductive PC where
  | start
  | checked (found : Bool)
  | done (ok : Bool)
  deriving DecidableEq, Repr

/-- One in-flight `reserve_zone` execution: target zone, caller badge and
program counter. -/
structure Sess where
  zp : String
  badge : String
  pc : PC
  deriving DecidableEq, Repr

/-- Shared state of two interleaved `reserve_zone` executions: the committed
`active_tasks` table, the two sessions, and the next `SERIAL` row id. -/
structure Conc where
  store : Store
  sa : Sess
  sb : Sess
  nid : Nat
  deriving DecidableEq, Repr

/-- One atomic statement of a `reserve_zone` execution, exactly as the source
orders them: the `SELECT` commits no write and records whether an active,
unexpired row for the zone exists; the `INSERT` (taken only when the check saw
none) appends a fresh active row and commits. -/
def stepSess (now hours : Int) (sess : Sess) (store : Store) (nid : Nat) :
    Sess × Store × Nat :=
  match sess.pc with
  | PC.start => ({ sess with pc := PC.checked (find_active_row sess.zp now store).isSome },
                 store, nid)
  | PC.checked true => ({ sess with pc := PC.done false }, store, nid)
  | PC.checked false =>
      ({ sess with pc := PC.done true },
       store ++ [⟨nid, sess.zp, sess.badge, now, now + hours, Status.active⟩], nid + 1)
  | PC.done _ => (sess, store, nid)

/-- Run a schedule over the two sessions: `true` steps session A, `false`
steps session B. -/
def runSched (now hours : Int) : List Bool → Conc → Conc
  | [], c => c
  | first :: rest, c =>
    if first then
      let r := stepSess now hours c.sa c.store c.nid
      runSched now hours rest ⟨r.2.1, r.1, c.sb, r.2.2⟩
    else
      let r := stepSess now hours c.sb c.store c.nid
      runSched now hours rest ⟨r.2.1, c.sa, r.1, r.2.2⟩

/-!
The `/api/task/new` allocation loop.
-/

/-- One row of the `warehouse_places` reference catalog as read by the task
endpoints: numeric id, dotted code, and the decoded address components
(`floor`, `row_num`, `section` — the last one named `sect` here because
`section` is a Lean keyword), each of which may be NULL. -/
structure CatPlace where
  mx_id : Nat
  mx_code : String
  floor : Option Int
  row_num : Option Int
  sect : Option Int
  deriving DecidableEq, Repr

/-- The zone query of `get_new_task`: all catalog rows whose `mx_code` starts
with the sampled 9-character zone, ordered by `mx_code`, limited to
`zone_size` rows. -/
def zone_rows (catalog : List CatPlace) (zp : String) (zone_size : Nat) : List CatPlace :=
  ((catalog.filter (fun p => decide (p.mx_code.take zp.length = zp))).mergeSort
    (fun a b => decide (a.mx_code ≤ b.mx_code))).take zone_size

/-- Outcome of `/api/task/new` (src/app.py lines 1575-1670): a reserved zone
with its places, or the 503 `'Все доступные зоны заняты'` answer produced when
the ten attempts are exhausted.  The handler has no other failure answer for
an empty catalog: the type deliberately has no separate empty-catalog
constructor because the source has none. -/
inductive TaskResult where
  | success (zone : String) (places : List CatPlace)
  | allZonesBusy
  deriving DecidableEq, Repr

/-- The retry loop of `get_new_task`, one recursive call per attempt.  Each
attempt consumes one element of `samples`, the stream of random draws of the
`ORDER BY RANDOM() LIMIT 1` subquery, modelled as indices into the rows with a
non-empty `mx_code`; an out-of-range index models an empty sample (no rows).
An attempt whose zone query returns no rows, whose zone is empty, or whose
zone is in the occupied set falls through to the next attempt; a failed
`reserve_zone` adds the zone to the in-memory occupied set and retries. -/
def get_new_task_loop (catalog : List CatPlace) (badge : String) (zone_size : Nat)
    (now hours : Int) :
    List Nat → List String → Nat → Store → TaskResult × Store
  | [], _occupied, _nid, store => (TaskResult.allZonesBusy, store)
  | idx :: rest, occupied, nid, store =>
    match (catalog.filter (fun p => p.mx_code ≠ ""))[idx]? with
    | none => get_new_task_loop catalog badge zone_size now hours rest occupied nid store
    | some rp =>
      let rows := zone_rows catalog (rp.mx_code.take 9) zone_size
      match rows.head? with
      | none => get_new_task_loop catalog badge zone_size now hours rest occupied nid store
      | some r0 =>
        if r0.mx_code = "" then
          get_new_task_loop catalog badge zone_size now hours rest occupied nid store
        else
          let zp := r0.mx_code.take 9
          if zp ∈ occupied then
            get_new_task_loop catalog badge zone_size now hours rest occupied nid store
          else
            match reserve_zone false zp badge hours now nid store with
            | (true, store2) => (TaskResult.success zp rows, store2)
            | (false, store2) =>
              get_new_task_loop catalog badge zone_size now hours rest (zp :: occupied) nid store2

/-- The `max_attempts` constant of `get_new_task`. -/
def max_attempts : Nat := 10

/-- Model of `get_new_task` (src/app.py lines 1575-1670): sweep expired leases, read the
occupied-zone set, then run up to `max_attempts` allocation attempts. -/
def get_new_task (catalog : List CatPlace) (badge : String) (zone_size : Nat) (now : Int)
    (samples : List Nat) (nid : Nat) (s : Store) : TaskResult × Store :=
  let s1 := (cleanup_expired_tasks false now s).1
  let occupied := get_occupied_zones false now s1
  get_new_task_loop catalog badge zone_size now 2 (samples.take max_attempts) occupied nid s1

/-!
The `/api/tasks/suggestions` recommender (src/app.py lines 1884-1994).
-/

/-- One row of the `inventory_results` history as read by the priority query:
scanned place name, discrepancy flag, scan timestamp. -/
structure HistRow where
  place_name : Option String
  has_discrepancy : Bool
  created_at : Int
  deriving DecidableEq, Repr

/-- The `WHERE` clause of the priority query: `has_discrepancy AND place_name
IS NOT NULL AND place_name != ''`. -/
def histKept (h : HistRow) : Bool :=
  h.has_discrepancy && decide (h.place_name.getD "" ≠ "")

/-- The distinct place names produced by `GROUP BY place_name` over the kept
history rows. -/
def hist_names (history : List HistRow) : List String :=
  ((history.filter histKept).map (fun h => h.place_name.getD "")).dedup

/-- The `MAX(created_at)` aggregate over the kept history rows of one place name — the sort
key of the priority query. -/
def hist_max (history : List HistRow) (name : String) : Option Int :=
  (((history.filter histKept).filter (fun h => h.place_name.getD "" = name)).map
    HistRow.created_at).max?

/-- The priority set of the recommender: place names with discrepancy history,
most recent first (`ORDER BY MAX(created_at) DESC LIMIT 5`), then normalised
by `strip().upper()` as in the Python dict comprehension. -/
def priority_mx (history : List HistRow) : List String :=
  (((hist_names history).mergeSort
      (fun a b => decide ((hist_max history b).getD 0 ≤ (hist_max history a).getD 0))).take 5).map
    (fun nm => nm.trim.toUpper)

/-- One row of the nearest-places query: the code together with its computed
`ABS(f - rf) + ABS(r - rr) + ABS(s - rs)` distance column. -/
structure SuggRow where
  mx_code : String
  dist : Int
  deriving DecidableEq, Repr

/-- The L1 distance column of the nearest-places query: address components
`COALESCE`d to 0 on both the place and the reference side. -/
def place_dist (rfv rrv rsv : Int) (p : CatPlace) : Int :=
  |p.floor.getD 0 - rfv| + |p.row_num.getD 0 - rrv| + |p.sect.getD 0 - rsv|

/-- The `ORDER BY dist ASC, mx_code ASC` comparison, as a boolean relation on
query rows. -/
def suggKey (a b : SuggRow) : Bool :=
  decide (a.dist < b.dist) || (decide (a.dist = b.dist) && decide (a.mx_code ≤ b.mx_code))

/-- The nearest-places query of the recommender: every catalog row with a
non-empty code, paired with its distance to the reference, ordered by
`dist ASC, mx_code ASC`, limited to 20 rows. -/
def nearest_rows (catalog : List CatPlace) (rfv rrv rsv : Int) : List SuggRow :=
  (((catalog.filter (fun p => p.mx_code ≠ "")).map
      (fun p => ⟨p.mx_code, place_dist rfv rrv rsv p⟩)).mergeSort suggKey).take 20

/-- One entry of the returned `suggestions` JSON list: trimmed code, its
9-character zone, and the priority highlight flag. -/
structure Sugg where
  mx_code : String
  zone : String
  highlight : Bool
  deriving DecidableEq, Repr

/-- Body of the Python suggestion loop for one kept row `r`: `mc` is the
stripped code, `zone` is `mc[:9] if len(mc) >= 9 else mc`, and `highlight`
tests membership of `mc.upper()` in the priority set. -/
def sugg_of (priority : List String) (r : SuggRow) : Sugg :=
  let mc := r.mx_code.trim
  ⟨mc, if 9 ≤ mc.length then mc.take 9 else mc, decide (mc.toUpper ∈ priority)⟩

/-- The Python dedup loop over the nearest rows: skip a row whose stripped
code is empty or whose upper-cased code was already seen, otherwise emit its
suggestion; stop as soon as the emitted list reaches 12 entries.  `cap` is the
remaining capacity (initially 12): the loop breaks right after emitting the
entry that fills it. -/
def suggest_loop (priority : List String) : List SuggRow → List String → Nat → List Sugg
  | [], _seen, _cap => []
  | r :: rest, seen, cap =>
    let mc := r.mx_code.trim
    if mc = "" ∨ mc.toUpper ∈ seen then suggest_loop priority rest seen cap
    else if cap ≤ 1 then [sugg_of priority r]
    else sugg_of priority r :: suggest_loop priority rest (mc.toUpper :: seen) (cap - 1)

/-- Model of `get_task_suggestions` (src/app.py lines 1884-1994) after the reference
address `(ref_floor, ref_row, ref_section)` has been resolved (from the `near`
code or the badge's last scan; `none` components default to 0): priority set,
nearest rows, dedup loop capped at 12. -/
def get_task_suggestions (catalog : List CatPlace) (history : List HistRow)
    (refFloor refRow refSect : Option Int) : List Sugg :=
  suggest_loop (priority_mx history)
    (nearest_rows catalog (refFloor.getD 0) (refRow.getD 0) (refSect.getD 0)) [] 12

/-!
Helper lemmas.
-/

/-- A row rewritten by the `complete_task` update no longer matches the update
filter, and an untouched row did not match it in the first place. -/
lemma completeMatches_after (zone badge : String) (l : Lease) :
    completeMatches zone badge
      (if completeMatches zone badge l then { l with status := Status.completed } else l)
      = false := by
  by_cases h : completeMatches zone badge l = true
  · rw [if_pos h]
    simp [completeMatches, leaseZone]
  · rw [if_neg h]
    simpa using h

/-- After one `complete_task` update pass, no row matches the filter any
more. -/
lemma countP_complete_after (zone badge : String) (s : Store) :
    (s.map (fun l => if completeMatches zone badge l then { l with status := Status.completed }
                     else l)).countP (completeMatches zone badge) = 0 := by
  rw [List.countP_eq_zero]
  intro a ha
  obtain ⟨l, _, rfl⟩ := List.mem_map.mp ha
  simp [completeMatches_after]

/-- A row rewritten by the expiry sweep no longer matches the sweep filter,
and an untouched row never matched it. -/
lemma expiredNow_after (now : Int) (l : Lease) :
    expiredNow now (if expiredNow now l then { l with status := Status.expired } else l)
      = false := by
  by_cases h : expiredNow now l = true
  · rw [if_pos h]
    simp [expiredNow]
  · rw [if_neg h]
    simpa using h

/-!
Claim theorems.
-/

/-- C2: with exactly one row matching the caller's active lease on the zone
(and a non-empty badge and zone, so the 400 guard does not fire), the first
`complete_task` call answers `success = true` and rewrites that lease to
`completed`; the immediately repeated call answers `success = false` and
leaves the table untouched; neither call errors, whatever the rest of the
table holds. -/
theorem complete_zone_idempotent (badge zone : String) (s : Store)
    (hb : badge ≠ "") (hz : zone ≠ "")
    (hone : s.countP (completeMatches zone badge) = 1) :
    (complete_task badge zone s).1 = CompleteResult.ok true
    ∧ (∀ l ∈ s, completeMatches zone badge l = true →
        { l with status := Status.completed } ∈ (complete_task badge zone s).2)
    ∧ (complete_task badge zone (complete_task badge zone s).2).1 = CompleteResult.ok false
    ∧ (complete_task badge zone (complete_task badge zone s).2).2
        = (complete_task badge zone s).2 := by
  have hguard : ¬(badge = "" ∨ zone = "") := by simp [hb, hz]
  have hmap0 := countP_complete_after zone badge s
  refine ⟨?_, ?_, ?_, ?_⟩
  · simp [complete_task, if_neg hguard, hone]
  · intro l hl hm
    simp only [complete_task, if_neg hguard]
    exact List.mem_map.mpr ⟨l, hl, by rw [if_pos hm]⟩
  · simp only [complete_task, if_neg hguard]
    simp [hmap0]
  · simp only [complete_task, if_neg hguard]
    refine (List.map_congr_left ?_).trans (List.map_id _)
    intro a ha
    obtain ⟨x, _, rfl⟩ := List.mem_map.mp ha
    have hfalse := completeMatches_after zone badge x
    simp [hfalse]

/-- Witness for `complete_zone_idempotent` at a one-row table. -/
theorem complete_zone_idempotent_witness :
    ([⟨1, "36.02.40.", "A001", 0, 200, Status.active⟩] : Store).countP
        (completeMatches "36.02.40." "A001") = 1
    ∧ (complete_task "A001" "36.02.40."
        [⟨1, "36.02.40.", "A001", 0, 200, Status.active⟩]).1 = CompleteResult.ok true
    ∧ (complete_task "A001" "36.02.40."
        (complete_task "A001" "36.02.40."
          [⟨1, "36.02.40.", "A001", 0, 200, Status.active⟩]).2).1
        = CompleteResult.ok false :=
  ⟨by decide,
   (complete_zone_idempotent "A001" "36.02.40."
     [⟨1, "36.02.40.", "A001", 0, 200, Status.active⟩]
     (by decide) (by decide) (by decide)).1,
   (complete_zone_idempotent "A001" "36.02.40."
     [⟨1, "36.02.40.", "A001", 0, 200, Status.active⟩]
     (by decide) (by decide) (by decide)).2.2.1⟩

/-- C10: `complete_task` consults only the `status` column, never
`expires_at`: a lease whose expiration is already in the past (the sweep has
not run) but whose status is still `active` is completed with
`success = true`. -/
theorem complete_ignores_expiration (badge zone : String) (now : Int) (s : Store) (l : Lease)
    (hb : badge ≠ "") (hz : zone ≠ "") (hl : l ∈ s)
    (hzone : leaseZone l = zone) (hbadge : l.badge = badge)
    (hactive : l.status = Status.active) (hexpired : l.expires_at < now) :
    (complete_task badge zone s).1 = CompleteResult.ok true
    ∧ { l with status := Status.completed } ∈ (complete_task badge zone s).2 := by
  have hguard : ¬(badge = "" ∨ zone = "") := by simp [hb, hz]
  have hm : completeMatches zone badge l = true := by
    simp [completeMatches, hzone, hbadge, hactive]
  constructor
  · have hpos : 0 < s.countP (completeMatches zone badge) :=
      List.countP_pos_iff.mpr ⟨l, hl, hm⟩
    simp [complete_task, if_neg hguard, hpos]
  · simp only [complete_task, if_neg hguard]
    exact List.mem_map.mpr ⟨l, hl, by rw [if_pos hm]⟩

/-- Witness for `complete_ignores_expiration`: a lease expired at 50, observed
at time 100 with its status still `active`, is completed. -/
theorem complete_ignores_expiration_witness :
    (complete_task "A001" "36.02.40."
      [⟨1, "36.02.40.", "A001", 0, 50, Status.active⟩]).1 = CompleteResult.ok true
    ∧ (⟨1, "36.02.40.", "A001", 0, 50, Status.completed⟩ : Lease)
        ∈ (complete_task "A001" "36.02.40."
            [⟨1, "36.02.40.", "A001", 0, 50, Status.active⟩]).2 :=
  complete_ignores_expiration "A001" "36.02.40." 100
    [⟨1, "36.02.40.", "A001", 0, 50, Status.active⟩]
    ⟨1, "36.02.40.", "A001", 0, 50, Status.active⟩
    (by decide) (by decide) (by decide) (by decide) (by decide) (by decide) (by decide)

/-- C3 counterexample: the sweep uses the strict comparison `expires_at <
CURRENT_TIMESTAMP`, so an active lease whose expiration equals the current
time is NOT transitioned, although the claim ("expiration ≤ now") says it must
be: at `now = 50` the row expiring at 50 stays `active` and the reported count
is 0. -/
theorem cleanup_at_boundary_not_expired :
    cleanup_expired_tasks false 50 [⟨1, "36.02.40.", "A001", 0, 50, Status.active⟩]
      = ([⟨1, "36.02.40.", "A001", 0, 50, Status.active⟩], 0) := by decide

/-- C3 as amended: the sweep transitions exactly the active leases with
`expires_at` strictly below `now` to `expired`, leaves every other row
unchanged (in particular the table length is unchanged), and running it again
right away changes nothing and reports zero rows. -/
theorem cleanup_strict_expiry_idempotent (now : Int) (s : Store) :
    (cleanup_expired_tasks false now s).1.length = s.length
    ∧ (∀ l ∈ s, l.status = Status.active → l.expires_at < now →
        { l with status := Status.expired } ∈ (cleanup_expired_tasks false now s).1)
    ∧ (∀ l ∈ s, ¬(l.expires_at < now ∧ l.status = Status.active) →
        l ∈ (cleanup_expired_tasks false now s).1)
    ∧ cleanup_expired_tasks false now (cleanup_expired_tasks false now s).1
        = ((cleanup_expired_tasks false now s).1, 0) := by
  refine ⟨?_, ?_, ?_, ?_⟩
  · simp [cleanup_expired_tasks]
  · intro l hl hact hexp
    have hm : expiredNow now l = true := by simp [expiredNow, hact, hexp]
    simp only [cleanup_expired_tasks, if_neg (Bool.false_ne_true)]
    exact List.mem_map.mpr ⟨l, hl, by rw [if_pos hm]⟩
  · intro l hl hnot
    have hm : expiredNow now l = false := by
      simpa [expiredNow] using hnot
    simp only [cleanup_expired_tasks, if_neg (Bool.false_ne_true)]
    exact List.mem_map.mpr ⟨l, hl, by simp [hm]⟩
  · have hall : ∀ a ∈ (cleanup_expired_tasks false now s).1, expiredNow now a = false := by
      intro a ha
      simp only [cleanup_expired_tasks] at ha
      rw [if_neg (Bool.false_ne_true)] at ha
      obtain ⟨x, _, rfl⟩ := List.mem_map.mp ha
      exact expiredNow_after now x
    simp only [cleanup_expired_tasks, if_neg (Bool.false_ne_true)] at hall ⊢
    rw [Prod.mk.injEq]
    constructor
    · refine (List.map_congr_left ?_).trans (List.map_id _)
      intro a ha
      simp [hall a ha]
    · rw [List.countP_eq_zero]
      intro a ha
      simp [hall a ha]

/-- Witness for `cleanup_strict_expiry_idempotent` at a two-row table with one
stale active lease. -/
theorem cleanup_strict_expiry_idempotent_witness :
    (⟨1, "36.02.40.", "A001", 0, 50, Status.expired⟩ : Lease)
      ∈ (cleanup_expired_tasks false 100
          [⟨1, "36.02.40.", "A001", 0, 50, Status.active⟩,
           ⟨2, "36.03.10.", "B002", 0, 200, Status.active⟩]).1
    ∧ (⟨2, "36.03.10.", "B002", 0, 200, Status.active⟩ : Lease)
      ∈ (cleanup_expired_tasks false 100
          [⟨1, "36.02.40.", "A001", 0, 50, Status.active⟩,
           ⟨2, "36.03.10.", "B002", 0, 200, Status.active⟩]).1 :=
  ⟨(cleanup_strict_expiry_idempotent 100
      [⟨1, "36.02.40.", "A001", 0, 50, Status.active⟩,
       ⟨2, "36.03.10.", "B002", 0, 200, Status.active⟩]).2.1
      ⟨1, "36.02.40.", "A001", 0, 50, Status.active⟩ (by decide) (by decide) (by decide),
   (cleanup_strict_expiry_idempotent 100
      [⟨1, "36.02.40.", "A001", 0, 50, Status.active⟩,
       ⟨2, "36.03.10.", "B002", 0, 200, Status.active⟩]).2.2.1
      ⟨2, "36.03.10.", "B002", 0, 200, Status.active⟩ (by decide) (by decide)⟩

/-- C7 counterexample: the `UPDATE` of `admin_extend_task` filters only on
`task_id` and `status = 'active'` — never on `expires_at`.  A lease that
expired at time 50, observed at time 100 with its status still `active`, is
extended and returned instead of answering 404 `LeaseNotFound` with the store
unchanged, contradicting the claim. -/
theorem admin_extend_extends_expired_lease :
    admin_extend_task 1 24 [⟨1, "36.02.40.", "A001", 0, 50, Status.active⟩]
      = (some ⟨1, "36.02.40.", "A001", 0, 74, Status.active⟩,
         [⟨1, "36.02.40.", "A001", 0, 74, Status.active⟩])
    ∧ (50 : Int) < 100 := by decide

/-- C7 as amended: `admin_extend_task` extends a lease exactly when some row
with the given `task_id` has status `active`, regardless of its expiration
timestamp; otherwise it answers 404 (`none`) and leaves the store
unchanged. -/
theorem admin_extend_active_status_only (tid : Nat) (hours : Int) (s : Store) :
    ((admin_extend_task tid hours s).1 = none ↔
      ∀ l ∈ s, ¬(l.task_id = tid ∧ l.status = Status.active))
    ∧ ((admin_extend_task tid hours s).1 = none → (admin_extend_task tid hours s).2 = s)
    ∧ (∀ l ∈ s, l.task_id = tid → l.status = Status.active →
        { l with expires_at := l.expires_at + hours } ∈ (admin_extend_task tid hours s).2) := by
  refine ⟨?_, ?_, ?_⟩
  · simp only [admin_extend_task, Option.map_eq_none', List.find?_eq_none]
    constructor
    · intro h l hl
      have := h l hl
      simpa [extendMatches] using this
    · intro h l hl
      simpa [extendMatches] using h l hl
  · intro h
    have hnone : s.find? (extendMatches tid) = none := by
      simpa only [admin_extend_task, Option.map_eq_none'] using h
    have hall := List.find?_eq_none.mp hnone
    simp only [admin_extend_task]
    refine (List.map_congr_left ?_).trans (List.map_id _)
    intro a ha
    have : ¬extendMatches tid a = true := hall a ha
    simp [this]
  · intro l hl htid hact
    have hm : extendMatches tid l = true := by simp [extendMatches, htid, hact]
    simp only [admin_extend_task]
    exact List.mem_map.mpr ⟨l, hl, by rw [if_pos hm]⟩

/-- Witness for `admin_extend_active_status_only`: an `expired`-status row is
not found (404, store unchanged), and an `active` row is extended. -/
theorem admin_extend_active_status_only_witness :
    ((admin_extend_task 1 24 [⟨1, "36.02.40.", "A001", 0, 50, Status.expired⟩]).1 = none
      → (admin_extend_task 1 24 [⟨1, "36.02.40.", "A001", 0, 50, Status.expired⟩]).2
          = [⟨1, "36.02.40.", "A001", 0, 50, Status.expired⟩])
    ∧ (⟨2, "36.03.10.", "B002", 0, 224, Status.active⟩ : Lease)
        ∈ (admin_extend_task 2 24 [⟨2, "36.03.10.", "B002", 0, 200, Status.active⟩]).2 :=
  ⟨(admin_extend_active_status_only 1 24
      [⟨1, "36.02.40.", "A001", 0, 50, Status.expired⟩]).2.1,
   (admin_extend_active_status_only 2 24
      [⟨2, "36.03.10.", "B002", 0, 200, Status.active⟩]).2.2
      ⟨2, "36.03.10.", "B002", 0, 200, Status.active⟩ (by decide) (by decide) (by decide)⟩

/-- C6 counterexample: a store failure inside `reserve_zone` is swallowed and
converted into the same `False` ("zone busy") answer that an occupied zone
produces, a store failure inside `get_occupied_zones` is converted into the
empty occupied set, and a store failure inside `cleanup_expired_tasks` is
converted into a silent no-op — none of them is surfaced to the caller. -/
theorem store_failure_masked_concrete :
    reserve_zone true "36.02.40." "A001" 2 100 7 [] = (false, [])
    ∧ reserve_zone false "36.02.40." "A001" 2 100 7
        [⟨1, "36.02.40.", "B002", 0, 200, Status.active⟩]
        = (false, [⟨1, "36.02.40.", "B002", 0, 200, Status.active⟩])
    ∧ get_occupied_zones true 100 [⟨1, "36.02.40.", "B002", 0, 200, Status.active⟩] = []
    ∧ cleanup_expired_tasks true 100 [⟨1, "36.02.40.", "B002", 0, 50, Status.active⟩]
        = ([⟨1, "36.02.40.", "B002", 0, 50, Status.active⟩], 0) := by decide

/-- C6 as amended: on a store failure the allocation path rolls back and then
swallows the error — `reserve_zone` answers `false`, the very value it answers
for an occupied zone, `get_occupied_zones` answers the empty set, and
`cleanup_expired_tasks` silently does nothing — so the caller cannot tell a
store failure from an allocation failure. -/
theorem store_failure_swallowed (zp badge : String) (hours now : Int) (nid : Nat)
    (s s2 : Store) (hocc : (find_active_row zp now s2).isSome = true) :
    reserve_zone true zp badge hours now nid s = (false, s)
    ∧ reserve_zone false zp badge hours now nid s2 = (false, s2)
    ∧ get_occupied_zones true now s = []
    ∧ cleanup_expired_tasks true now s = (s, 0) := by
  refine ⟨rfl, ?_, rfl, rfl⟩
  obtain ⟨l, hfind⟩ := Option.isSome_iff_exists.mp hocc
  simp [reserve_zone, hfind]

/-- Witness for `store_failure_swallowed` with an occupied one-row table. -/
theorem store_failure_swallowed_witness :
    reserve_zone true "36.02.40." "A001" 2 100 7 [⟨9, "36.09.", "C003", 0, 1, Status.completed⟩]
      = (false, [⟨9, "36.09.", "C003", 0, 1, Status.completed⟩])
    ∧ reserve_zone false "36.02.40." "A001" 2 100 7
        [⟨1, "36.02.40.", "B002", 0, 200, Status.active⟩]
        = (false, [⟨1, "36.02.40.", "B002", 0, 200, Status.active⟩]) :=
  ⟨(store_failure_swallowed "36.02.40." "A001" 2 100 7
      [⟨9, "36.09.", "C003", 0, 1, Status.completed⟩]
      [⟨1, "36.02.40.", "B002", 0, 200, Status.active⟩] (by decide)).1,
   (store_failure_swallowed "36.02.40." "A001" 2 100 7
      [⟨9, "36.09.", "C003", 0, 1, Status.completed⟩]
      [⟨1, "36.02.40.", "B002", 0, 200, Status.active⟩] (by decide)).2.1⟩

/-- C1: the check-then-insert of `reserve_zone` is two separate statements on
a table with no uniqueness constraint, so the interleaving check-A, check-B,
insert-A, insert-B of two concurrent calls for the same zone makes BOTH checks
see no active lease and BOTH inserts commit: both sessions report success and
the committed table holds two active, unexpired leases for zone `36.02.40.` —
the per-zone mutual-exclusion invariant `countActive ≤ 1` is violated,
refuting the claim that two interleaved executions never both insert. -/
theorem race_check_then_insert_double_lease :
    (runSched 100 2 [true, false, true, false]
      ⟨[], ⟨"36.02.40.", "A001", PC.start⟩, ⟨"36.02.40.", "B002", PC.start⟩, 1⟩).sa.pc
        = PC.done true
    ∧ (runSched 100 2 [true, false, true, false]
        ⟨[], ⟨"36.02.40.", "A001", PC.start⟩, ⟨"36.02.40.", "B002", PC.start⟩, 1⟩).sb.pc
        = PC.done true
    ∧ countActive "36.02.40." 100
        (runSched 100 2 [true, false, true, false]
          ⟨[], ⟨"36.02.40.", "A001", PC.start⟩, ⟨"36.02.40.", "B002", PC.start⟩, 1⟩).store
        = 2 := by decide

/-- The allocation loop on an empty catalog: every attempt samples nothing,
finds no rows and falls through, so the loop exhausts its attempts and answers
the 503 busy error with the store untouched. -/
lemma get_new_task_loop_empty_catalog (badge : String) (zone_size : Nat) (now hours : Int) :
    ∀ (samples : List Nat) (occupied : List String) (nid : Nat) (store : Store),
      get_new_task_loop [] badge zone_size now hours samples occupied nid store
        = (TaskResult.allZonesBusy, store) := by
  intro samples
  induction samples with
  | nil => intro occupied nid store; rfl
  | cons idx rest ih =>
    intro occupied nid store
    simp only [get_new_task_loop, List.filter_nil]
    simpa using ih occupied nid store

/-- C5 as amended: when the catalog holds no locations at all, `get_new_task`
exhausts its attempts and fails with the very same `allZonesBusy` (503) answer
it gives when the retry budget is exhausted over occupied zones; the handler
has no separate `CatalogEmpty` error, so the two situations are not
distinguishable by the caller. -/
theorem empty_catalog_returns_all_zones_busy (badge : String) (zone_size : Nat) (now : Int)
    (samples : List Nat) (nid : Nat) (s : Store) :
    get_new_task [] badge zone_size now samples nid s
      = (TaskResult.allZonesBusy, (cleanup_expired_tasks false now s).1) := by
  simp only [get_new_task]
  exact get_new_task_loop_empty_catalog badge zone_size now 2 _ _ _ _

/-- C5 counterexample: with an empty catalog, a concrete `get_new_task`
request fails with `allZonesBusy` — the retry-exhaustion error — not with any
distinct empty-catalog error, contradicting the claim that the two outcomes
are distinguishable. -/
theorem empty_catalog_returns_all_zones_busy_concrete :
    get_new_task [] "A001" 50 100 [0, 1, 2, 3, 4, 5, 6, 7, 8, 9] 1 []
      = (TaskResult.allZonesBusy, []) := by decide

/-- C4: a lease whose `expires_at` is strictly in the past is excluded from
the active listing and — when no still-live active lease covers its zone —
from the occupied-zone set, and the very next `reserve_zone` call hands its
zone to a different worker by inserting a fresh active row. -/
theorem expired_lease_released (now : Int) (s : Store) (l : Lease) (w2 : String)
    (hours : Int) (nid : Nat)
    (hl : l ∈ s) (hexp : l.expires_at < now) (hw : w2 ≠ l.badge)
    (hall : ∀ m ∈ s, leaseZone m = leaseZone l → m.status = Status.active →
      m.expires_at ≤ now) :
    l ∉ get_active_tasks now s
    ∧ leaseZone l ∉ get_occupied_zones false now s
    ∧ reserve_zone false (leaseZone l) w2 hours now nid s
        = (true, s ++ [⟨nid, leaseZone l, w2, now, now + hours, Status.active⟩]) := by
  refine ⟨?_, ?_, ?_⟩
  · intro hmem
    rw [get_active_tasks, List.mem_mergeSort, List.mem_filter] at hmem
    have hpred := of_decide_eq_true hmem.2
    omega
  · intro hmem
    rw [get_occupied_zones, if_neg (Bool.false_ne_true), List.mem_dedup] at hmem
    obtain ⟨m, hm, hzeq⟩ := List.mem_map.mp hmem
    rw [List.mem_filter] at hm
    obtain ⟨hact, hlt⟩ := of_decide_eq_true hm.2
    have := hall m hm.1 hzeq hact
    omega
  · have hnone : find_active_row (leaseZone l) now s = none := by
      rw [find_active_row, List.find?_eq_none]
      intro m hm hpred
      obtain ⟨hz, hact, hlt⟩ := of_decide_eq_true hpred
      have := hall m hm hz hact
      omega
    simp [reserve_zone, hnone]

/-- Witness for `expired_lease_released`: worker A001's lease on zone
`36.02.40.` expired at 50; at time 100 it is invisible to the listing and the
occupied set and the zone is re-leased to B002. -/
theorem expired_lease_released_witness :
    (⟨1, "36.02.40.", "A001", 0, 50, Status.active⟩ : Lease)
      ∉ get_active_tasks 100 [⟨1, "36.02.40.", "A001", 0, 50, Status.active⟩]
    ∧ leaseZone ⟨1, "36.02.40.", "A001", 0, 50, Status.active⟩
        ∉ get_occupied_zones false 100 [⟨1, "36.02.40.", "A001", 0, 50, Status.active⟩]
    ∧ reserve_zone false (leaseZone ⟨1, "36.02.40.", "A001", 0, 50, Status.active⟩)
        "B002" 2 100 2 [⟨1, "36.02.40.", "A001", 0, 50, Status.active⟩]
        = (true, [⟨1, "36.02.40.", "A001", 0, 50, Status.active⟩]
            ++ [⟨2, leaseZone ⟨1, "36.02.40.", "A001", 0, 50, Status.active⟩, "B002",
                  100, 100 + 2, Status.active⟩]) :=
  expired_lease_released 100 [⟨1, "36.02.40.", "A001", 0, 50, Status.active⟩]
    ⟨1, "36.02.40.", "A001", 0, 50, Status.active⟩ "B002" 2 2
    (by decide) (by decide) (by decide) (by decide)

/-- The `ORDER BY dist, mx_code` comparison is transitive. -/
lemma suggKey_trans (a b c : SuggRow) (hab : suggKey a b = true) (hbc : suggKey b c = true) :
    suggKey a c = true := by
  simp only [suggKey, Bool.or_eq_true, Bool.and_eq_true, decide_eq_true_eq] at hab hbc ⊢
  rcases hab with h1 | ⟨h1, h1s⟩ <;> rcases hbc with h2 | ⟨h2, h2s⟩
  · exact Or.inl (by omega)
  · exact Or.inl (by omega)
  · exact Or.inl (by omega)
  · exact Or.inr ⟨by omega, le_trans h1s h2s⟩

/-- The `ORDER BY dist, mx_code` comparison is total. -/
lemma suggKey_total (a b : SuggRow) : (suggKey a b || suggKey b a) = true := by
  simp only [suggKey, Bool.or_eq_true, Bool.and_eq_true, decide_eq_true_eq]
  rcases lt_trichotomy a.dist b.dist with h | h | h
  · exact Or.inl (Or.inl h)
  · rcases le_total a.mx_code b.mx_code with hs | hs
    · exact Or.inl (Or.inr ⟨h, hs⟩)
    · exact Or.inr (Or.inr ⟨h.symm, hs⟩)
  · exact Or.inr (Or.inl h)

/-- The nearest-places rows come out sorted by non-decreasing distance with
ties broken by code order. -/
lemma nearest_rows_pairwise (catalog : List CatPlace) (rfv rrv rsv : Int) :
    (nearest_rows catalog rfv rrv rsv).Pairwise
      (fun a b => a.dist ≤ b.dist ∧ (a.dist = b.dist → a.mx_code ≤ b.mx_code)) := by
  have hsorted := List.sorted_mergeSort suggKey_trans suggKey_total
    ((catalog.filter (fun p => p.mx_code ≠ "")).map
      (fun p => ⟨p.mx_code, place_dist rfv rrv rsv p⟩))
  have htake := List.Pairwise.sublist (List.take_sublist 20 _) hsorted
  refine htake.imp ?_
  intro a b hab
  simp only [suggKey, Bool.or_eq_true, Bool.and_eq_true, decide_eq_true_eq] at hab
  rcases hab with h | ⟨h, hs⟩
  · exact ⟨le_of_lt h, fun he => by omega⟩
  · exact ⟨le_of_eq h, fun _ => hs⟩

/-- Every nearest-places row carries a non-negative distance. -/
lemma nearest_rows_nonneg (catalog : List CatPlace) (rfv rrv rsv : Int) :
    ∀ r ∈ nearest_rows catalog rfv rrv rsv, 0 ≤ r.dist := by
  intro r hr
  rw [nearest_rows] at hr
  have hr2 := List.mem_of_mem_take hr
  rw [List.mem_mergeSort] at hr2
  obtain ⟨p, _, rfl⟩ := List.mem_map.mp hr2
  have h1 := abs_nonneg (p.floor.getD 0 - rfv)
  have h2 := abs_nonneg (p.row_num.getD 0 - rrv)
  have h3 := abs_nonneg (p.sect.getD 0 - rsv)
  simp only [place_dist]
  omega

/-- The Python dedup loop emits the images under `sugg_of` of a sublist of its
input rows. -/
lemma suggest_loop_map_sublist (priority : List String) :
    ∀ (rows : List SuggRow) (seen : List String) (cap : Nat),
      ∃ rs : List SuggRow, rs.Sublist rows
        ∧ suggest_loop priority rows seen cap = rs.map (sugg_of priority) := by
  intro rows
  induction rows with
  | nil => exact fun seen cap => ⟨[], List.Sublist.refl [], rfl⟩
  | cons r rest ih =>
    intro seen cap
    by_cases hskip : r.mx_code.trim = "" ∨ r.mx_code.trim.toUpper ∈ seen
    · obtain ⟨rs, hsub, heq⟩ := ih seen cap
      refine ⟨rs, hsub.cons r, ?_⟩
      simp only [suggest_loop]
      rw [if_pos hskip]
      exact heq
    · by_cases hcap : cap ≤ 1
      · refine ⟨[r], (List.nil_sublist rest).cons₂ r, ?_⟩
        simp only [suggest_loop]
        rw [if_neg hskip, if_pos hcap]
        rfl
      · obtain ⟨rs, hsub, heq⟩ := ih (r.mx_code.trim.toUpper :: seen) (cap - 1)
        refine ⟨r :: rs, hsub.cons₂ r, ?_⟩
        simp only [suggest_loop]
        rw [if_neg hskip, if_neg hcap]
        simp [heq]

/-- The Python dedup loop never emits more entries than its remaining
capacity. -/
lemma suggest_loop_length_le (priority : List String) :
    ∀ (rows : List SuggRow) (seen : List String) (cap : Nat), 1 ≤ cap →
      (suggest_loop priority rows seen cap).length ≤ cap := by
  intro rows
  induction rows with
  | nil => intro seen cap hcap; simp [suggest_loop]
  | cons r rest ih =>
    intro seen cap hcap
    simp only [suggest_loop]
    by_cases hskip : r.mx_code.trim = "" ∨ r.mx_code.trim.toUpper ∈ seen
    · rw [if_pos hskip]
      exact ih seen cap hcap
    · rw [if_neg hskip]
      by_cases hcap1 : cap ≤ 1
      · rw [if_pos hcap1]
        simpa using hcap
      · rw [if_neg hcap1]
        have := ih (r.mx_code.trim.toUpper :: seen) (cap - 1) (by omega)
        simp only [List.length_cons]
        omega

/-- No entry emitted by the Python dedup loop normalises into the `seen` set
it started from, and the emitted entries have pairwise distinct normalised
codes. -/
lemma suggest_loop_distinct (priority : List String) :
    ∀ (rows : List SuggRow) (seen : List String) (cap : Nat),
      (∀ e ∈ suggest_loop priority rows seen cap, e.mx_code.toUpper ∉ seen)
      ∧ (suggest_loop priority rows seen cap).Pairwise
          (fun a b => a.mx_code.toUpper ≠ b.mx_code.toUpper) := by
  intro rows
  induction rows with
  | nil => intro seen cap; simp [suggest_loop]
  | cons r rest ih =>
    intro seen cap
    simp only [suggest_loop]
    by_cases hskip : r.mx_code.trim = "" ∨ r.mx_code.trim.toUpper ∈ seen
    · rw [if_pos hskip]
      exact ih seen cap
    · rw [if_neg hskip]
      push_neg at hskip
      by_cases hcap1 : cap ≤ 1
      · rw [if_pos hcap1]
        constructor
        · intro e he
          rw [List.mem_singleton] at he
          subst he
          exact hskip.2
        · simp
      · rw [if_neg hcap1]
        obtain ⟨hseen, hpw⟩ := ih (r.mx_code.trim.toUpper :: seen) (cap - 1)
        constructor
        · intro e he
          rcases List.mem_cons.mp he with he | he
          · subst he
            exact hskip.2
          · have := hseen e he
            simp only [List.mem_cons] at this
            push_neg at this
            exact this.2
        · refine List.pairwise_cons.mpr ⟨?_, hpw⟩
          intro e he
          have := hseen e he
          simp only [List.mem_cons] at this
          push_neg at this
          exact fun hcontra => this.1 hcontra.symm

/-- The highlight flag of an emitted entry tests exactly the membership of its
own upper-cased code in the priority set. -/
lemma sugg_of_highlight (priority : List String) (r : SuggRow) :
    ((sugg_of priority r).highlight = true ↔ (sugg_of priority r).mx_code.toUpper ∈ priority) := by
  simp [sugg_of]

/-- C8: the returned suggestion list is the image, entry for entry, of a
sublist of the 20 nearest rows; those rows are pairwise sorted by
non-decreasing L1 distance with ties broken by code order and carry
non-negative distances; a catalog location whose (floor, row, section)
address — missing components defaulted to 0 — equals the reference has
distance 0; and any entry preceding a distance-0 entry in the returned rows
also has distance 0, so an exact match sits in the leading distance-0
block. -/
theorem suggestions_sorted_by_distance (catalog : List CatPlace) (history : List HistRow)
    (refFloor refRow refSect : Option Int) :
    ∃ rs : List SuggRow,
      rs.Sublist (nearest_rows catalog (refFloor.getD 0) (refRow.getD 0) (refSect.getD 0))
      ∧ get_task_suggestions catalog history refFloor refRow refSect
          = rs.map (sugg_of (priority_mx history))
      ∧ rs.Pairwise (fun a b => a.dist ≤ b.dist ∧ (a.dist = b.dist → a.mx_code ≤ b.mx_code))
      ∧ (∀ r ∈ rs, 0 ≤ r.dist)
      ∧ (∀ p ∈ catalog,
          p.floor.getD 0 = refFloor.getD 0 → p.row_num.getD 0 = refRow.getD 0 →
          p.sect.getD 0 = refSect.getD 0 →
          place_dist (refFloor.getD 0) (refRow.getD 0) (refSect.getD 0) p = 0)
      ∧ (∀ pre e post, rs = pre ++ e :: post → e.dist = 0 → ∀ q ∈ pre, q.dist = 0) := by
  obtain ⟨rs, hsub, heq⟩ := suggest_loop_map_sublist (priority_mx history)
    (nearest_rows catalog (refFloor.getD 0) (refRow.getD 0) (refSect.getD 0)) [] 12
  have hpw := List.Pairwise.sublist hsub
    (nearest_rows_pairwise catalog (refFloor.getD 0) (refRow.getD 0) (refSect.getD 0))
  have hnn : ∀ r ∈ rs, 0 ≤ r.dist := fun r hr =>
    nearest_rows_nonneg catalog (refFloor.getD 0) (refRow.getD 0) (refSect.getD 0) r
      (hsub.subset hr)
  refine ⟨rs, hsub, heq, hpw, hnn, ?_, ?_⟩
  · intro p _ hf hr hs
    simp [place_dist, hf, hr, hs]
  · intro pre e post hrs he q hq
    have hq0 := hnn q (by rw [hrs]; exact List.mem_append_left _ hq)
    rw [hrs] at hpw
    have hqe := (List.pairwise_append.mp hpw).2.2 q hq e (List.mem_cons_self e post)
    omega

/-- Witness for `suggestions_sorted_by_distance` at a three-place catalog
around the reference address (2, 40, 140). -/
theorem suggestions_sorted_by_distance_witness :
    ∃ rs : List SuggRow,
      rs.Sublist (nearest_rows
        [⟨1, "36.02.40.140.06.01", some 2, some 40, some 140⟩,
         ⟨2, "36.03.10.050.01.01", some 3, some 10, some 50⟩,
         ⟨3, "36.02.41.140.06.01", some 2, some 41, some 140⟩]
        ((some (2 : Int)).getD 0) ((some (40 : Int)).getD 0) ((some (140 : Int)).getD 0))
      ∧ get_task_suggestions
          [⟨1, "36.02.40.140.06.01", some 2, some 40, some 140⟩,
           ⟨2, "36.03.10.050.01.01", some 3, some 10, some 50⟩,
           ⟨3, "36.02.41.140.06.01", some 2, some 41, some 140⟩]
          [] (some 2) (some 40) (some 140)
          = rs.map (sugg_of (priority_mx []))
      ∧ rs.Pairwise (fun a b => a.dist ≤ b.dist ∧ (a.dist = b.dist → a.mx_code ≤ b.mx_code))
      ∧ (∀ r ∈ rs, 0 ≤ r.dist)
      ∧ (∀ p ∈ [⟨1, "36.02.40.140.06.01", some 2, some 40, some 140⟩,
                 ⟨2, "36.03.10.050.01.01", some 3, some 10, some 50⟩,
                 ⟨3, "36.02.41.140.06.01", some 2, some 41, some 140⟩],
          p.floor.getD 0 = ((some (2 : Int)).getD 0) →
          p.row_num.getD 0 = ((some (40 : Int)).getD 0) →
          p.sect.getD 0 = ((some (140 : Int)).getD 0) →
          place_dist ((some (2 : Int)).getD 0) ((some (40 : Int)).getD 0)
            ((some (140 : Int)).getD 0) p = 0)
      ∧ (∀ pre e post, rs = pre ++ e :: post → e.dist = 0 → ∀ q ∈ pre, q.dist = 0) :=
  suggestions_sorted_by_distance
    [⟨1, "36.02.40.140.06.01", some 2, some 40, some 140⟩,
     ⟨2, "36.03.10.050.01.01", some 3, some 10, some 50⟩,
     ⟨3, "36.02.41.140.06.01", some 2, some 41, some 140⟩]
    [] (some 2) (some 40) (some 140)

/-- C9: the returned suggestion list has at most 12 entries, no two entries
share the same normalised (trimmed, upper-cased) code, an entry is
highlighted exactly when its normalised code belongs to the priority set, and
the priority set drawn from the discrepancy history is capped to 5 codes. -/
theorem suggestions_dedup_cap_highlight (catalog : List CatPlace) (history : List HistRow)
    (refFloor refRow refSect : Option Int) :
    (get_task_suggestions catalog history refFloor refRow refSect).length ≤ 12
    ∧ (get_task_suggestions catalog history refFloor refRow refSect).Pairwise
        (fun a b => a.mx_code.toUpper ≠ b.mx_code.toUpper)
    ∧ (∀ e ∈ get_task_suggestions catalog history refFloor refRow refSect,
        (e.highlight = true ↔ e.mx_code.toUpper ∈ priority_mx history))
    ∧ (priority_mx history).length ≤ 5 := by
  refine ⟨?_, ?_, ?_, ?_⟩
  · exact suggest_loop_length_le _ _ _ _ (by omega)
  · exact (suggest_loop_distinct _ _ _ _).2
  · intro e he
    obtain ⟨rs, _, heq⟩ := suggest_loop_map_sublist (priority_mx history)
      (nearest_rows catalog (refFloor.getD 0) (refRow.getD 0) (refSect.getD 0)) [] 12
    rw [get_task_suggestions, heq] at he
    obtain ⟨r, _, rfl⟩ := List.mem_map.mp he
    exact sugg_of_highlight _ r
  · rw [priority_mx]
    simp only [List.length_map, List.length_take]
    omega

/-- Witness for `suggestions_dedup_cap_highlight` at a concrete catalog and
history. -/
theorem suggestions_dedup_cap_highlight_witness :
    (get_task_suggestions
      [⟨1, "36.02.40.140.06.01", some 2, some 40, some 140⟩,
       ⟨2, "36.02.40.140.06.01 ", some 2, some 40, some 141⟩]
      [⟨some "36.02.40.140.06.01", true, 10⟩] (some 2) (some 40) (some 140)).length ≤ 12
    ∧ (∀ e ∈ get_task_suggestions
        [⟨1, "36.02.40.140.06.01", some 2, some 40, some 140⟩,
         ⟨2, "36.02.40.140.06.01 ", some 2, some 40, some 141⟩]
        [⟨some "36.02.40.140.06.01", true, 10⟩] (some 2) (some 40) (some 140),
        (e.highlight = true ↔ e.mx_code.toUpper
          ∈ priority_mx [⟨some "36.02.40.140.06.01", true, 10⟩])) :=
  ⟨(suggestions_dedup_cap_highlight
      [⟨1, "36.02.40.140.06.01", some 2, some 40, some 140⟩,
       ⟨2, "36.02.40.140.06.01 ", some 2, some 40, some 141⟩]
      [⟨some "36.02.40.140.06.01", true, 10⟩] (some 2) (some 40) (some 140)).1,
   (suggestions_dedup_cap_highlight
      [⟨1, "36.02.40.140.06.01", some 2, some 40, some 140⟩,
       ⟨2, "36.02.40.140.06.01 ", some 2, some 40, some 141⟩]
      [⟨some "36.02.40.140.06.01", true, 10⟩] (some 2) (some 40) (some 140)).2.2.1⟩

end Inventarizacia
